import Mathlib

set_option maxRecDepth 40000

/-!
Shallow embedding of the ingestion-and-decode pipeline of the New-RBS-KPIs
repository (src/betting_database.py, src/rarebet.py, src/modules/database.py,
src/modules/data_processor.py, src/claiming_database.py) together with proofs
settling the frozen claims about it.

Python exceptions are modelled with `Option`: a function that can raise an
uncaught exception returns `none` on the raising inputs; callers that catch
the exception turn `none` back into the documented default value.
-/

/-! ## Model of Python `int(s, 16)`

`int(s, 16)` strips surrounding whitespace, accepts an optional sign, an
optional `0x`/`0X` marker (possibly followed by a single underscore), and
then hexadecimal digits in which single underscores may stand between
digits.  Malformed input raises `ValueError`, modelled as `none`. -/

def isPySpace (c : Char) : Bool :=
  c = ' ' || c = '\t' || c = '\n' || c = '\r' || c = '\x0b' || c = '\x0c'

/-- Value of one hexadecimal digit character (ASCII `0-9`, `a-f`, `A-F`,
code points 48-57, 97-102 and 65-70 respectively). -/
def hexDigitVal (c : Char) : Option Nat :=
  let n := c.toNat
  if 48 ≤ n ∧ n ≤ 57 then some (n - 48)
  else if 97 ≤ n ∧ n ≤ 102 then some (n - 87)
  else if 65 ≤ n ∧ n ≤ 70 then some (n - 55)
  else none

/-- Digits after the first one: single underscores are allowed, but only
immediately between two hexadecimal digits. -/
def hexCore : List Char → Nat → Option Nat
  | [], acc => some acc
  | '_' :: c :: rest, acc =>
    match hexDigitVal c with
    | some d => hexCore rest (16 * acc + d)
    | none => none
  | '_' :: [], _ => none
  | c :: rest, acc =>
    match hexDigitVal c with
    | some d => hexCore rest (16 * acc + d)
    | none => none

/-- A nonempty run of hexadecimal digits (with inner underscores); the first
character must be a digit. -/
def hexDigitsVal (cs : List Char) : Option Nat :=
  match cs with
  | [] => none
  | c :: rest =>
    match hexDigitVal c with
    | some d => hexCore rest d
    | none => none

/-- After the optional sign: an optional `0x`/`0X` marker (a single
underscore may follow it) and then the digits. -/
def parseAfterSign (cs : List Char) : Option Nat :=
  match cs with
  | '0' :: x :: rest =>
    if x = 'x' || x = 'X' then
      match rest with
      | '_' :: rest2 => hexDigitsVal rest2
      | _ => hexDigitsVal rest
    else hexDigitsVal cs
  | _ => hexDigitsVal cs

/-- Model of Python `int(s, 16)`; `none` models a raised `ValueError`. -/
def pythonIntBase16 (s : String) : Option Int :=
  let cs := (s.toList.dropWhile isPySpace).reverse.dropWhile isPySpace |>.reverse
  match cs with
  | '+' :: rest => (parseAfterSign rest).map (fun n => (n : Int))
  | '-' :: rest => (parseAfterSign rest).map (fun n => -(n : Int))
  | _ => (parseAfterSign cs).map (fun n => (n : Int))

/-! ## PayloadDecoder functions -/

/-- `hex_to_int` from src/betting_database.py (lines 256-263): empty or bare
`"0x"` return 0, and `ValueError`/`TypeError` from `int(hex_str, 16)` is
caught and turned into 0, so the function is total. -/
def hex_to_int (hex_str : String) : Int :=
  if hex_str = "" || hex_str = "0x" then 0
  else
    match pythonIntBase16 hex_str with
    | some v => v
    | none => 0

/-- `hex_to_int` from src/rarebet.py (lines 37-40, identical in
src/modules/data_processor.py): only the empty string is special-cased and
`int(hex_str, 16)` is NOT wrapped in try/except, so a malformed string makes
the function raise (`none`). -/
def rarebet_hex_to_int (hex_str : String) : Option Int :=
  if hex_str = "" then some 0
  else pythonIntBase16 hex_str

/-- Python string slice `s[a:b]` for `a ≤ b` (as a character list). -/
def pySlice (s : String) (a b : Nat) : String :=
  String.mk ((s.toList.drop a).take (b - a))

/-- `calculate_cards_in_slip_from_tx` from src/betting_database.py
(lines 265-289; src/rarebet.py lines 42-71 has the same semantics): for
inputs of fewer than 138 characters the result is 0; otherwise the hex word
at characters 74..138 is decoded, a decode failure gives 0, and any value
above 1,000,000 is clamped to 0. -/
def calculate_cards_in_slip_from_tx (tx_input : String) : Int :=
  if tx_input = "" || tx_input.length < 138 then 0
  else
    match pythonIntBase16 (pySlice tx_input 74 138) with
    | some card_count => if 1000000 < card_count then 0 else card_count
    | none => 0

/-- Strip a leading `0x` as in `data[2:] if data.startswith('0x') else data`. -/
def stripHexMarker (s : String) : List Char :=
  if s.toList.take 2 = ['0', 'x'] then s.toList.drop 2 else s.toList

/-- The log-data card-count extraction of src/betting_database.py
(lines 539-550) and src/modules/data_processor.py (lines 255-264): after
stripping the `0x` marker, if at least 256 characters remain, the word at
characters 192..256 is decoded with `hex_to_int`, with NO upper sanity
bound; otherwise the count stays 0.  An empty `data` field is falsy and
skips the extraction, which also yields 0. -/
def cards_from_log_data (data : String) : Int :=
  if data = "" then 0
  else
    let data_hex := stripHexMarker data
    if 256 ≤ data_hex.length then
      hex_to_int (String.mk ((data_hex.drop 192).take 64))
    else 0

/-! ## Raw chain data -/

/-- An event log as projected by the fetch queries (address, topics 0..3,
data, transaction hash). -/
structure Log where
  address : String
  topics : List String
  data : String
  transaction_hash : String
deriving DecidableEq, Repr

/-- A transaction as projected by the fetch queries (`to_addr` stands for the
Python attribute `tx.to`; `to` is a Lean keyword). -/
structure TransactionData where
  hash : String
  from_ : String
  to_addr : String
  value : String
  input : String
  status : Int
  block_number : Nat
deriving DecidableEq, Repr

/-- A block header as projected by the fetch queries. -/
structure BlockHeader where
  number : Option Nat
  timestamp : Option String
deriving DecidableEq, Repr

/-- The payload of a successful hypersync response. -/
structure WindowData where
  blocks : List BlockHeader
  transactions : List TransactionData
  logs : List Log
deriving DecidableEq, Repr

/-- A hypersync response: `data` is `none` when `not response.data` holds,
`next_block` is `none`/`some 0` when `response.next_block` is falsy. -/
structure FetchResponse where
  data : Option WindowData
  next_block : Option Nat
deriving DecidableEq, Repr

/-! ## RecordStore (src/betting_database.py `OptimizedBettingDatabase`) -/

/-- One row of the `betting_transactions` table (src/betting_database.py
lines 96-109).  `amount` is the already-divided decimal value, kept exact
as a rational. -/
structure TxRow where
  timestamp : Int
  tx_hash : String
  from_address : String
  to_address : String
  token : String
  amount : ℚ
  n_cards : Int
  bet_id : Int
  block_number : Nat
deriving DecidableEq, Repr

/-- `INSERT OR IGNORE` executed row by row: a row whose `tx_hash` already
exists in the table (or earlier in the same batch) is skipped, and
`cursor.rowcount` counts only rows actually inserted. -/
def insertOrIgnore (rows : List TxRow) (batch : List TxRow) : List TxRow × Nat :=
  batch.foldl
    (fun acc tx =>
      if acc.1.any (fun r => r.tx_hash == tx.tx_hash) then acc
      else (acc.1 ++ [tx], acc.2 + 1))
    (rows, 0)

/-- `OptimizedBettingDatabase.insert_transactions_batch`
(src/betting_database.py lines 169-210): an empty batch returns 0 at once;
a `sqlite3.Error` during `executemany` (modelled by `dbError`) is caught,
nothing is committed, and 0 is returned; otherwise the batch is inserted
with `INSERT OR IGNORE` and the number of new rows is returned. -/
def insert_transactions_batch (rows : List TxRow) (batch : List TxRow)
    (dbError : Bool) : List TxRow × Nat :=
  if batch.isEmpty then (rows, 0)
  else if dbError then (rows, 0)
  else insertOrIgnore rows batch

/-- `BettingAnalyticsDB.insert_transactions` (src/modules/database.py lines
129-165): plain `INSERT` per row with `sqlite3.IntegrityError` caught and
the row skipped, so the duplicate-handling semantics coincide with
`INSERT OR IGNORE`; the count of actually inserted rows is returned. -/
def insert_transactions (rows : List TxRow) (batch : List TxRow) :
    List TxRow × Nat :=
  if batch.isEmpty then (rows, 0)
  else insertOrIgnore rows batch

/-! ## IngestionPipeline (src/betting_database.py) -/

/-- `BATCH_SIZE` (src/betting_database.py line 65). -/
def BATCH_SIZE : Nat := 50000

/-- How one iteration of the fetch loops of
`fetch_mon_transactions_optimized` (src/betting_database.py lines 303-428)
and `fetch_jerry_transactions_optimized` (lines 441-601) advances
`current_block`.  `fetchResult = none` models `client.get` raising (the
`except` branch sets `current_block = batch_end`); a response with falsy
`data` also jumps to `batch_end`; otherwise `next_block` is used only when
it is truthy and strictly beyond `current_block`, with `batch_end` as the
fallback. -/
def stepAdvance (currentBlock endBlock : Nat)
    (fetchResult : Option FetchResponse) : Nat :=
  let batch_end := min (currentBlock + BATCH_SIZE) endBlock
  match fetchResult with
  | none => batch_end
  | some response =>
    match response.data with
    | none => batch_end
    | some _ =>
      match response.next_block with
      | none => batch_end
      | some nb => if nb ≠ 0 ∧ currentBlock < nb then nb else batch_end

/-- Observable actions of one pipeline run, in program order. -/
inductive PipeEvent where
  | insertBatch (count : Nat) (ok : Bool)
  | checkpointUpdate (block : Nat)
deriving DecidableEq, Repr

/-- Database state seen by the pipeline: the `betting_transactions` rows and
the singleton `last_processed_block` checkpoint. -/
structure PipeState where
  rows : List TxRow
  checkpoint : Nat
deriving DecidableEq, Repr

/-- `process_all_transactions_optimized` (src/betting_database.py lines
610-658).  `startArg`/`endArg` are the optional explicit block bounds (the
`main` CLI passes `--start-block`/`--end-block`, incremental mode passes the
stored checkpoint, the default passes 0 and the chain height); a missing
start falls back to the stored checkpoint and a missing end to `height`.
`fetchedData` is the concatenation `mon_data + jerry_data` produced by the
two fetches; `dbError` tells whether the batch insert hits a caught
`sqlite3.Error`.  Returns the new state, the inserted count, and the trace
of store/checkpoint events in program order. -/
def process_all_transactions_optimized (st : PipeState)
    (startArg endArg : Option Nat) (height : Nat)
    (fetchedData : List TxRow) (dbError : Bool) :
    PipeState × Nat × List PipeEvent :=
  let start_block := startArg.getD st.checkpoint
  let end_block := endArg.getD height
  if end_block ≤ start_block then (st, 0, [])
  else if fetchedData.isEmpty then
    ({ st with checkpoint := end_block }, 0,
      [PipeEvent.checkpointUpdate end_block])
  else
    let res := insert_transactions_batch st.rows fetchedData dbError
    ({ rows := res.1, checkpoint := end_block }, res.2,
      [PipeEvent.insertBatch res.2 (!dbError),
       PipeEvent.checkpointUpdate end_block])

/-! ## Bet-id decoding (src/betting_database.py, src/rarebet.py) -/

/-- Python `str.lower()` restricted to ASCII, which is all the address and
topic comparisons use. -/
def toLowerStr (s : String) : String :=
  String.mk (s.toList.map Char.toLower)

/-- `CARDS_LOG_TOPIC_0` (src/betting_database.py line 59). -/
def CARDS_LOG_TOPIC_0 : String :=
  "0xefc52bf7792453af1461fa9a7097486359b41a048898b6d542c0f03389487187"

/-- The Python guard `log.topics and log.topics[0] and
log.topics[0].lower() == topic.lower()`. -/
def topicZeroIs (log : Log) (topic : String) : Bool :=
  match log.topics with
  | [] => false
  | t0 :: _ => t0 ≠ "" && toLowerStr t0 == toLowerStr topic

/-- The per-log condition of the bet-id scan in
`fetch_mon_transactions_optimized` (src/betting_database.py lines 398-406):
the log must belong to the transaction, carry at least 3 topics, and its
topic0 must be the card-event signature. -/
def isCoreCardLog (txHash : String) (log : Log) : Bool :=
  log.transaction_hash == txHash && decide (3 ≤ log.topics.length)
    && topicZeroIs log CARDS_LOG_TOPIC_0

/-- The bet-id extraction of `fetch_mon_transactions_optimized`
(src/betting_database.py lines 377-408, identically repeated for Jerry at
lines 552-577): scan the returned logs for the first one that matches the
transaction, has at least 3 topics, and whose topic0 is the card-event
signature; decode its `topics[2]` with the total `hex_to_int`, defaulting
to 0 when no such log exists. -/
def betting_db_bet_id (txHash : String) (logs : List Log) : Int :=
  match logs.find? (fun log => isCoreCardLog txHash log) with
  | some log => hex_to_int (log.topics.getD 2 "")
  | none => 0

/-- The bet-id extraction of `fetch_data_part1` (src/rarebet.py lines
116-121): the first log of the transaction with at least 3 topics is used
WITHOUT checking its topic0, and its `topics[2]` is decoded with rarebet's
raising `hex_to_int` (`none` models the uncaught `ValueError`). -/
def rarebet_bet_id (txHash : String) (logs : List Log) : Option Int :=
  match logs.find?
      (fun log => log.transaction_hash == txHash
        && decide (3 ≤ log.topics.length)) with
  | some log => rarebet_hex_to_int (log.topics.getD 2 "")
  | none => some 0

/-! ## TransactionClassifier (src/claiming_database.py) -/

/-- `RBS_CONTRACT_ADDRESSES` (src/claiming_database.py lines 38-41). -/
def RBS_CONTRACT_ADDRESSES : List String :=
  ["0x3ad50059d6008b711209a509fe58e68f0b672a42",
   "0x740990cb01e893a371a050736c62ae0b779109e7"]

/-- `JERRY_CONTRACT_ADDRESS` (src/claiming_database.py line 44). -/
def JERRY_CONTRACT_ADDRESS : String :=
  "0xda054a96254776346386060c480b42a10c870cd2"

/-- `RBSD_CONTRACT_ADDRESS` (src/claiming_database.py line 45). -/
def RBSD_CONTRACT_ADDRESS : String :=
  "0x8a86d48c867b76FF74A36d3AF4d2F1E707B143eD"

/-- `CLAIM_EVENT_TOPIC` (src/claiming_database.py line 34). -/
def CLAIM_EVENT_TOPIC : String :=
  "0x9f930e45e5f186baa9054d3efb58f5f12c8894372119fb461d8abd2b9418cf2d"

/-- `TRANSFER_EVENT_TOPIC` (src/claiming_database.py line 35). -/
def TRANSFER_EVENT_TOPIC : String :=
  "0xddf252ad1be2c89b69c2b068fc378daa952ba7f163c4a11628f55a4df523b3ef"

/-- `has_rbs_claiming_log` (src/claiming_database.py lines 280-284): some
log of the transaction is emitted by one of the RBS core contracts and
carries the claim-event topic0. -/
def has_rbs_claiming_log (tx_logs : List Log) : Bool :=
  tx_logs.any (fun log =>
    log.address ≠ ""
      && (RBS_CONTRACT_ADDRESSES.map toLowerStr).contains (toLowerStr log.address)
      && topicZeroIs log CLAIM_EVENT_TOPIC)

/-- `has_jerry_transfer_log` (src/claiming_database.py lines 290-294). -/
def has_jerry_transfer_log (tx_logs : List Log) : Bool :=
  tx_logs.any (fun log =>
    log.address ≠ ""
      && toLowerStr log.address == toLowerStr JERRY_CONTRACT_ADDRESS
      && topicZeroIs log TRANSFER_EVENT_TOPIC)

/-- `has_rbsd_transfer_log` (src/claiming_database.py lines 296-300). -/
def has_rbsd_transfer_log (tx_logs : List Log) : Bool :=
  tx_logs.any (fun log =>
    log.address ≠ ""
      && toLowerStr log.address == toLowerStr RBSD_CONTRACT_ADDRESS
      && topicZeroIs log TRANSFER_EVENT_TOPIC)

/-- The settlement-token categorization of
`fetch_all_claiming_transactions_fixed` (src/claiming_database.py lines
279-418): a transaction without the core claim-event log is skipped
(`none`); otherwise the `if has_jerry_transfer_log / elif
has_rbsd_transfer_log / else` chain assigns JERRY, then RBSD, then the
native MON category. -/
def classify_token (tx_logs : List Log) : Option String :=
  if !(has_rbs_claiming_log tx_logs) then none
  else if has_jerry_transfer_log tx_logs then some "JERRY"
  else if has_rbsd_transfer_log tx_logs then some "RBSD"
  else some "MON"

/-! ## Sample data used by concrete counterexamples and witnesses -/

/-- A sample decoded record for exercising the store and pipeline. -/
def sampleRow : TxRow :=
  ⟨0, "0xaaa", "0xf", "0x740990cb01e893a371a050736c62ae0b779109e7", "MON",
    0, 1, 0, 5⟩

/-- A log whose topic0 is NOT the card-event signature but which still has
three topics; exercises the missing topic0 filter of rarebet.py. -/
def strayLog : Log := ⟨"0xstray", ["0x1111", "0x01", "0x2a"], "0x", "0xtx9"⟩

/-- A genuine core card-event log with bet id 0x2a in `topics[2]`. -/
def coreLog9 : Log :=
  ⟨"0x3ad50059d6008b711209a509fe58e68f0b672a42",
    [CARDS_LOG_TOPIC_0, "0x00", "0x2a"], "0x", "0xtx9w"⟩

/-- A core claim-event log for the classifier examples. -/
def claimLog7 : Log :=
  ⟨"0x3ad50059d6008b711209a509fe58e68f0b672a42",
    [CLAIM_EVENT_TOPIC, "0x01", "0x2a"], "0x", "0xt7"⟩

/-- A JERRY transfer log for the classifier examples. -/
def jerryLog7 : Log :=
  ⟨"0xda054a96254776346386060c480b42a10c870cd2",
    [TRANSFER_EVENT_TOPIC], "0x64", "0xt7"⟩

/-- An RBSD transfer log for the classifier examples. -/
def rbsdLog7 : Log :=
  ⟨"0x8a86d48c867b76ff74a36d3af4d2f1e707b143ed",
    [TRANSFER_EVENT_TOPIC], "0x64", "0xt7"⟩

/-! ## Helper lemmas -/

theorem pythonIntBase16_empty_str : pythonIntBase16 "" = none := by decide

theorem pythonIntBase16_bare_0x : pythonIntBase16 "0x" = none := by decide

/-- When `int(hex_str, 16)` parses, the total `hex_to_int` returns exactly
the parsed value (the special cases `""` and `"0x"` cannot parse). -/
theorem hex_to_int_of_parse (s : String) (v : Int)
    (h : pythonIntBase16 s = some v) : hex_to_int s = v := by
  unfold hex_to_int
  by_cases h1 : s = ""
  · rw [h1] at h; rw [pythonIntBase16_empty_str] at h; cases h
  · by_cases h2 : s = "0x"
    · rw [h2] at h; rw [pythonIntBase16_bare_0x] at h; cases h
    · simp [h1, h2, h]

/-- `insertOrIgnore` with a single record either skips it (hash present) or
appends it and reports one insertion. -/
theorem insertOrIgnore_single (rows : List TxRow) (r : TxRow) :
    insertOrIgnore rows [r] =
      if rows.any (fun x => x.tx_hash == r.tx_hash) then (rows, 0)
      else (rows ++ [r], 1) := by
  unfold insertOrIgnore
  simp [List.foldl]

/-! ## Claims -/

/-- Claim C6 (confirmed): `calculate_cards_in_slip_from_tx` returns the
integer encoded at characters 74..138 of the call-data when it is at most
1,000,000, and returns 0 when that value exceeds 1,000,000, when the input
is shorter than 138 characters, or when the slice does not parse as
hexadecimal. -/
theorem claim_C6_card_count_from_input (s : String) :
    (s.length < 138 → calculate_cards_in_slip_from_tx s = 0) ∧
    (∀ v : Int, 138 ≤ s.length → pythonIntBase16 (pySlice s 74 138) = some v →
      v ≤ 1000000 → calculate_cards_in_slip_from_tx s = v) ∧
    (∀ v : Int, 138 ≤ s.length → pythonIntBase16 (pySlice s 74 138) = some v →
      1000000 < v → calculate_cards_in_slip_from_tx s = 0) ∧
    (138 ≤ s.length → pythonIntBase16 (pySlice s 74 138) = none →
      calculate_cards_in_slip_from_tx s = 0) := by
  unfold calculate_cards_in_slip_from_tx
  refine ⟨fun hlt => ?_, fun v hlen hp hle => ?_, fun v hlen hp hgt => ?_,
    fun hlen hp => ?_⟩
  · simp [hlt]
  · have hne : ¬ s.length < 138 := by omega
    have h0 : s ≠ "" := by intro h; rw [h] at hlen; simp at hlen
    have hv : ¬ (1000000 : Int) < v := by omega
    simp [hne, h0, hp, hv]
  · have hne : ¬ s.length < 138 := by omega
    have h0 : s ≠ "" := by intro h; rw [h] at hlen; simp at hlen
    simp [hne, h0, hp, hgt]
  · have hne : ¬ s.length < 138 := by omega
    have h0 : s ≠ "" := by intro h; rw [h] at hlen; simp at hlen
    simp [hne, h0, hp]

/-- Witness for C6 at the spec's own vectors: a call-data word encoding 5
decodes to 5, one encoding 2,000,000 is clamped to 0, and a short input
gives 0. -/
theorem claim_C6_card_count_from_input_witness :
    calculate_cards_in_slip_from_tx
      "0x5029defb00000000000000000000000000000000000000000000000000000000000000000000000000000000000000000000000000000000000000000000000000000005"
      = 5 ∧
    calculate_cards_in_slip_from_tx
      "0x5029defb000000000000000000000000000000000000000000000000000000000000000000000000000000000000000000000000000000000000000000000000001e8480"
      = 0 ∧
    calculate_cards_in_slip_from_tx "0x5029defb" = 0 := by
  refine ⟨?_, ?_, ?_⟩
  · exact (claim_C6_card_count_from_input _).2.1 5 (by decide) (by decide)
      (by decide)
  · exact (claim_C6_card_count_from_input _).2.2.1 2000000 (by decide)
      (by decide) (by decide)
  · exact (claim_C6_card_count_from_input _).1 (by decide)

/-- Claim C8 counterexample: the claim is false for the `hex_to_int` of
src/rarebet.py (one of the two cited implementations): on the bare string
`"0x"` — which the claim says maps to 0 — and on the malformed string
`"zz"` it raises `ValueError` (modelled by `none`) instead of returning 0,
because only the empty string is special-cased and there is no
try/except. -/
theorem claim_C8_counterexample :
    rarebet_hex_to_int "0x" = none ∧ rarebet_hex_to_int "zz" = none := by
  decide

/-- Claim C8 as amended: the `hex_to_int` of src/betting_database.py maps
`""` and `"0x"` to 0, returns 0 (rather than raising) on every string
`int(s, 16)` rejects, and otherwise returns the parsed value; the
`hex_to_int` of src/rarebet.py maps only `""` to 0 and propagates the
parse of everything else, raising on malformed input. -/
theorem claim_C8_hex_to_int (s : String) :
    hex_to_int "" = 0 ∧
    hex_to_int "0x" = 0 ∧
    (pythonIntBase16 s = none → hex_to_int s = 0) ∧
    (∀ v : Int, pythonIntBase16 s = some v → hex_to_int s = v) ∧
    rarebet_hex_to_int "" = some 0 ∧
    (s ≠ "" → rarebet_hex_to_int s = pythonIntBase16 s) := by
  refine ⟨by decide, by decide, fun hn => ?_, fun v hv => hex_to_int_of_parse s v hv,
    by decide, fun h0 => ?_⟩
  · unfold hex_to_int
    simp [hn]
  · unfold rarebet_hex_to_int
    simp [h0]

/-- Witness for C8 applying the amended theorem at the malformed input
`"zz"`. -/
theorem claim_C8_hex_to_int_witness :
    hex_to_int "zz" = 0 ∧ rarebet_hex_to_int "zz" = pythonIntBase16 "zz" := by
  exact ⟨(claim_C8_hex_to_int "zz").2.2.1 (by decide),
    (claim_C8_hex_to_int "zz").2.2.2.2.2 (by decide)⟩

/-- Claim C10 (confirmed, implicit): the log-data card-count extraction
applies NO upper sanity bound: when the stripped payload has at least 256
characters, the raw value encoded at characters 192..256 is returned as-is
(even above 1,000,000), and the count is 0 when the stripped payload is
shorter than 256 characters. -/
theorem claim_C10_log_card_count (data : String) :
    (∀ v : Int, 256 ≤ (stripHexMarker data).length →
      pythonIntBase16 (String.mk (((stripHexMarker data).drop 192).take 64))
        = some v →
      cards_from_log_data data = v) ∧
    ((stripHexMarker data).length < 256 → cards_from_log_data data = 0) := by
  constructor
  · intro v hlen hp
    have h0 : data ≠ "" := by
      intro h
      rw [h] at hlen
      simp [stripHexMarker] at hlen
    unfold cards_from_log_data
    simp [h0, hlen]
    exact hex_to_int_of_parse _ v hp
  · intro hlen
    unfold cards_from_log_data
    by_cases h0 : data = ""
    · simp [h0]
    · have hn : ¬ 256 ≤ (stripHexMarker data).length := by omega
      simp [h0, hn]

/-- Witness for C10: a 256-character payload whose fourth word encodes
2,000,000 yields 2,000,000 as-is — no sanity clamp on the log path. -/
theorem claim_C10_log_card_count_witness :
    cards_from_log_data
      "0x00000000000000000000000000000000000000000000000000000000000000000000000000000000000000000000000000000000000000000000000000000000000000000000000000000000000000000000000000000000000000000000000000000000000000000000000000000000000000000000000000000000001e8480"
      = 2000000 := by
  exact (claim_C10_log_card_count _).1 2000000 (by decide) (by decide)

/-- Claim C1 (confirmed): inserting the same record twice through the batch
insert adds at most one row in total; the second call is a no-op on the
stored rows and reports 0 inserted, and each call's returned count is
exactly the number of rows it added.  Both the `INSERT OR IGNORE` batch
insert of src/betting_database.py and the per-row
`except sqlite3.IntegrityError` insert of src/modules/database.py are
covered. -/
theorem claim_C1_insert_at_most_once (rows : List TxRow) (r : TxRow) :
    (insert_transactions_batch
        (insert_transactions_batch rows [r] false).1 [r] false).1
      = (insert_transactions_batch rows [r] false).1 ∧
    (insert_transactions_batch
        (insert_transactions_batch rows [r] false).1 [r] false).2 = 0 ∧
    (insert_transactions_batch rows [r] false).1.length ≤ rows.length + 1 ∧
    rows.length + (insert_transactions_batch rows [r] false).2
      = (insert_transactions_batch rows [r] false).1.length ∧
    (insert_transactions (insert_transactions rows [r]).1 [r]).1
      = (insert_transactions rows [r]).1 ∧
    (insert_transactions (insert_transactions rows [r]).1 [r]).2 = 0 ∧
    (insert_transactions rows [r]).1.length ≤ rows.length + 1 ∧
    rows.length + (insert_transactions rows [r]).2
      = (insert_transactions rows [r]).1.length := by
  have hb : ∀ rs : List TxRow, insert_transactions_batch rs [r] false
      = insertOrIgnore rs [r] := by
    intro rs
    unfold insert_transactions_batch
    simp
  have hi : ∀ rs : List TxRow, insert_transactions rs [r]
      = insertOrIgnore rs [r] := by
    intro rs
    unfold insert_transactions
    simp
  by_cases h : rows.any (fun x => x.tx_hash == r.tx_hash)
  · simp [hb, hi, insertOrIgnore_single, h]
  · simp [hb, hi, insertOrIgnore_single, h]

/-- Claim C2 counterexample: a run whose batch insert fails with a (caught)
database error — the insert reports 0 and commits nothing — still performs
the checkpoint update and advances it to the end block, because
`process_all_transactions_optimized` calls `update_last_processed_block`
unconditionally after `insert_transactions_batch` returns. -/
theorem claim_C2_counterexample :
    (process_all_transactions_optimized ⟨[], 0⟩ (some 0) (some 10) 0
        [sampleRow] true).1.checkpoint = 10 ∧
    (process_all_transactions_optimized ⟨[], 0⟩ (some 0) (some 10) 0
        [sampleRow] true).2.1 = 0 ∧
    (process_all_transactions_optimized ⟨[], 0⟩ (some 0) (some 10) 0
        [sampleRow] true).2.2
      = [PipeEvent.insertBatch 0 false, PipeEvent.checkpointUpdate 10] := by
  decide

/-- Claim C2 as amended: in every run that processes data, the checkpoint
update is sequenced strictly after the batch insert (the insert event
precedes the checkpoint event in the trace), but it is performed whether or
not the insert succeeded — a caught insert error still lets the checkpoint
advance to the end block; only a crash (uncaught exception) before the
update would leave it unchanged. -/
theorem claim_C2_checkpoint_after_insert (st : PipeState)
    (startArg endArg : Option Nat) (height : Nat) (fetchedData : List TxRow)
    (dbError : Bool)
    (hrun : startArg.getD st.checkpoint < endArg.getD height)
    (hdata : fetchedData ≠ []) :
    (process_all_transactions_optimized st startArg endArg height fetchedData
        dbError).2.2
      = [PipeEvent.insertBatch
          (process_all_transactions_optimized st startArg endArg height
            fetchedData dbError).2.1 (!dbError),
         PipeEvent.checkpointUpdate (endArg.getD height)] ∧
    (process_all_transactions_optimized st startArg endArg height fetchedData
        dbError).1.checkpoint = endArg.getD height := by
  unfold process_all_transactions_optimized
  have h1 : ¬ endArg.getD height ≤ startArg.getD st.checkpoint := by omega
  have h2 : fetchedData.isEmpty = false := by
    cases fetchedData with
    | nil => exact absurd rfl hdata
    | cons a l => rfl
  simp [h1, h2]

/-- Witness for C2 on a successful run: the insert event (1 row, ok)
precedes the checkpoint event. -/
theorem claim_C2_checkpoint_after_insert_witness :
    (process_all_transactions_optimized ⟨[], 0⟩ (some 3) (some 7) 0
        [sampleRow] false).2.2
      = [PipeEvent.insertBatch 1 true, PipeEvent.checkpointUpdate 7] := by
  have h := claim_C2_checkpoint_after_insert ⟨[], 0⟩ (some 3) (some 7) 0
    [sampleRow] false (by decide) (by decide)
  have hc : (process_all_transactions_optimized ⟨[], 0⟩ (some 3) (some 7) 0
      [sampleRow] false).2.1 = 1 := by decide
  rw [h.1, hc]
  rfl

/-- Claim C3 counterexample: with explicit CLI block bounds the checkpoint
is NOT monotone: starting from a stored checkpoint of 100, a run with
`--start-block 0 --end-block 50` rewrites the checkpoint to 50 < 100. -/
theorem claim_C3_counterexample :
    (process_all_transactions_optimized ⟨[], 100⟩ (some 0) (some 50) 0
        [sampleRow] false).1.checkpoint = 50 ∧
    (process_all_transactions_optimized ⟨[], 100⟩ (some 0) (some 50) 0
        [sampleRow] false).1.checkpoint < 100 := by
  decide

/-- Claim C3 as amended: the persisted checkpoint is monotonically
non-decreasing for every run seeded from the stored checkpoint (no explicit
start block), and more generally for every run whose effective end block is
at least the prior checkpoint; it can decrease only when an explicit
start/end pair below the stored checkpoint is supplied. -/
theorem claim_C3_checkpoint_monotone (st : PipeState)
    (startArg endArg : Option Nat) (height : Nat) (fetchedData : List TxRow)
    (dbError : Bool)
    (h : startArg = none ∨ st.checkpoint ≤ endArg.getD height) :
    st.checkpoint ≤ (process_all_transactions_optimized st startArg endArg
      height fetchedData dbError).1.checkpoint := by
  unfold process_all_transactions_optimized
  by_cases h1 : endArg.getD height ≤ startArg.getD st.checkpoint
  · simp [h1]
  · have hend : st.checkpoint ≤ endArg.getD height := by
      rcases h with h | h
      · rw [h] at h1
        simp only [Option.getD_none] at h1
        omega
      · exact h
    by_cases h2 : fetchedData.isEmpty
    · simp [h1, h2]
      all_goals omega
    · simp [h1, h2]
      all_goals omega

/-- Witness for C3: an incremental run (start seeded from the checkpoint)
never moves the checkpoint below its previous value. -/
theorem claim_C3_checkpoint_monotone_witness :
    (0 : Nat) ≤ (process_all_transactions_optimized ⟨[], 0⟩ none (some 5) 0
      [sampleRow] false).1.checkpoint :=
  claim_C3_checkpoint_monotone ⟨[], 0⟩ none (some 5) 0 [sampleRow] false
    (Or.inl rfl)

/-- Claim C4 counterexample: when the window fetch raises (modelled by a
`none` fetch result), the loop does NOT stay at the current block to retry;
it advances `current_block` to the window end (here 200), skipping the
failed window. -/
theorem claim_C4_counterexample :
    stepAdvance 100 200 none = 200 ∧ 100 < stepAdvance 100 200 none := by
  decide

/-- Claim C4 as amended: a window fetch failure is NOT retried — the
`except` branch logs the error and advances `current_block` to the window
end `min(current_block + BATCH_SIZE, end_block)`, strictly past the failed
window, so that window's block range is skipped for this run. -/
theorem claim_C4_fetch_failure_skips_window (currentBlock endBlock : Nat)
    (h : currentBlock < endBlock) :
    stepAdvance currentBlock endBlock none
      = min (currentBlock + BATCH_SIZE) endBlock ∧
    currentBlock < stepAdvance currentBlock endBlock none := by
  constructor
  · rfl
  · show currentBlock < min (currentBlock + BATCH_SIZE) endBlock
    simp [BATCH_SIZE]
    omega

/-- Witness for C4 at the concrete window [100, 200). -/
theorem claim_C4_fetch_failure_skips_window_witness :
    stepAdvance 100 200 none = min (100 + BATCH_SIZE) 200 ∧
    100 < stepAdvance 100 200 none :=
  claim_C4_fetch_failure_skips_window 100 200 (by decide)

/-- Claim C5 counterexample: a response that carries data and reports
`next_block = 100 < to_block = 200` but with `next_block` not ahead of the
window start makes the loop resume at `to_block` (200), not at
`next_block`: the guard `response.next_block > current_block` falls back to
`batch_end`, so blocks in [100, 200) are skipped. -/
theorem claim_C5_counterexample :
    (100 : Nat) < 200 ∧
    stepAdvance 100 200 (some ⟨some ⟨[], [], []⟩, some 100⟩) = 200 ∧
    stepAdvance 100 200 (some ⟨some ⟨[], [], []⟩, some 100⟩) ≠ 100 := by
  decide

/-- Claim C5 as amended: whenever the response carries data and reports a
`next_block` strictly ahead of the window start, the loop resumes exactly
at `next_block` (never jumping to `to_block`); only a `next_block` that is
missing, zero, or not ahead of the current block — or a response without
data — falls back to the window end. -/
theorem claim_C5_resume_at_next_block (currentBlock endBlock nb : Nat)
    (d : WindowData) (h : currentBlock < nb) :
    stepAdvance currentBlock endBlock (some ⟨some d, some nb⟩) = nb := by
  unfold stepAdvance
  have h0 : nb ≠ 0 := by omega
  simp [h, h0]

/-- Witness for C5: a mid-window `next_block = 150` is resumed from
exactly. -/
theorem claim_C5_resume_at_next_block_witness :
    stepAdvance 100 200 (some ⟨some ⟨[], [], []⟩, some 150⟩) = 150 :=
  claim_C5_resume_at_next_block 100 200 150 ⟨[], [], []⟩ (by decide)

/-- Claim C7 (confirmed): the settlement-token categorization of
src/claiming_database.py is an `if/elif/else` chain evaluated in a fixed
priority order: given the core claim-event log, a JERRY transfer log wins
over an RBSD transfer log, which wins over the native MON default; in
particular a transaction carrying BOTH token transfer logs alongside the
core event is always categorized JERRY.  `classify_token` is a pure
function of the transaction's logs, so repeated runs agree by
definition. -/
theorem claim_C7_priority_order (tx_logs : List Log)
    (hcore : has_rbs_claiming_log tx_logs = true)
    (hA : has_jerry_transfer_log tx_logs = true)
    (hB : has_rbsd_transfer_log tx_logs = true) :
    classify_token tx_logs = some "JERRY" := by
  unfold classify_token
  simp [hcore, hA]

/-- Witness for C7: a transaction with the claim event, a JERRY transfer
log AND an RBSD transfer log classifies as JERRY. -/
theorem claim_C7_priority_order_witness :
    classify_token [claimLog7, jerryLog7, rbsdLog7] = some "JERRY" :=
  claim_C7_priority_order [claimLog7, jerryLog7, rbsdLog7] (by decide)
    (by decide) (by decide)

/-- Claim C9 counterexample: the bet-id scan of src/rarebet.py
`fetch_data_part1` (one of the two cited implementations) omits the topic0
check: on a transaction whose only log has three topics but a topic0
different from the card-event signature — so the core-event log is absent
and the claim demands 0 — it decodes `topics[2]` anyway and returns 42. -/
theorem claim_C9_counterexample :
    rarebet_bet_id "0xtx9" [strayLog] = some 42 ∧
    isCoreCardLog "0xtx9" strayLog = false ∧
    betting_db_bet_id "0xtx9" [strayLog] = 0 := by
  decide

/-- Claim C9 as amended: in src/betting_database.py the decoded bet id is
the hex-decoded `topics[2]` of the first log of the transaction with at
least 3 topics whose topic0 is the card-event signature, and 0 when no such
log exists (in particular when the core-event log is absent or has fewer
than 3 topics); src/rarebet.py's `fetch_data_part1` omits the topic0
filter and uses the first log of the transaction with at least 3 topics
whatever its topic0 is. -/
theorem claim_C9_bet_id_decode (txHash : String) (logs : List Log)
    (l : Log) :
    ((∀ x ∈ logs, isCoreCardLog txHash x = false) →
      betting_db_bet_id txHash logs = 0) ∧
    (l ∈ logs → isCoreCardLog txHash l = true →
      (∀ x ∈ logs, isCoreCardLog txHash x = true → x = l) →
      betting_db_bet_id txHash logs = hex_to_int (l.topics.getD 2 "")) ∧
    (∀ x, logs.find? (fun log => log.transaction_hash == txHash
        && decide (3 ≤ log.topics.length)) = some x →
      rarebet_bet_id txHash logs = rarebet_hex_to_int (x.topics.getD 2 "")) := by
  refine ⟨fun habs => ?_, fun hmem hcore huniq => ?_, fun x hx => ?_⟩
  · unfold betting_db_bet_id
    have : logs.find? (fun log => isCoreCardLog txHash log) = none := by
      rw [List.find?_eq_none]
      intro x hxmem
      simp [habs x hxmem]
    rw [this]
  · unfold betting_db_bet_id
    have hsome : (logs.find? (fun log => isCoreCardLog txHash log)).isSome := by
      rw [List.find?_isSome]
      exact ⟨l, hmem, hcore⟩
    obtain ⟨y, hy⟩ := Option.isSome_iff_exists.mp hsome
    have hyp : isCoreCardLog txHash y = true := List.find?_some hy
    have hym : y ∈ logs := List.mem_of_find?_eq_some hy
    have : y = l := huniq y hym hyp
    rw [hy, this]
  · unfold rarebet_bet_id
    rw [hx]

/-- Witness for C9 at the spec's vector `topics = [sig, _, "0x2a"]`: the
core-event decode yields 42. -/
theorem claim_C9_bet_id_decode_witness :
    betting_db_bet_id "0xtx9w" [coreLog9] = 42 := by
  have h := (claim_C9_bet_id_decode "0xtx9w" [coreLog9] coreLog9).2.1
    (by decide) (by decide) (by decide)
  rw [h]
  decide
